import Mathlib

/-!
Shallow embedding of the document-builder core of the `python-ngsild-client`
repository: the `NgsiDict` attribute builders (`src/ngsildclient/model/ngsidict.py`),
the subscription builder (`src/ngsildclient/api/helper/subscription.py`) and the
context-source-registration builder (`src/ngsildclient/api/helper/csourceregistration.py`).

Python values stored inside the built JSON-like documents are embedded as the
inductive type `Value`; mutable dictionaries become association lists built in
the same key order as the source assigns them; functions that can `raise`
return `Except NgsiErr`.

The repository's `utils` modules (`urn.py`, `iso8601.py`, `url.py`) and
`model/constants.py` are not part of the provided sources; the definitions
below that come from them are modelled from the specification and are marked
`Modelled from the spec:` in their doc comments.
-/

/-- The exception kinds raised by the embedded code, corresponding to
`NgsiUnmatchedAttributeTypeError`, `NgsiDateFormatError`, Python's `ValueError`
and Python's `AttributeError`. -/
inductive NgsiErr where
  | NgsiUnmatchedAttributeTypeError
  | NgsiDateFormatError
  | ValueError
  | AttributeError
  deriving DecidableEq

/-- Modelled from the spec: the temporal subtypes a value can parse to
(a full date-time, a bare date, a bare time, or a duration such as "P1D"). -/
inductive TemporalType where
  | DATETIME
  | DATE
  | TIME
  | DURATION
  deriving DecidableEq

/-- The wire name of a temporal subtype, used for the `"@type"` tag. -/
def TemporalType.val : TemporalType → String
  | .DATETIME => "DateTime"
  | .DATE => "Date"
  | .TIME => "Time"
  | .DURATION => "Duration"

/-- Modelled from the spec: an ISO-8601 input string together with the temporal
shape it parses to.  The classification that `iso8601.parse` performs on a raw
string is embedded in the constructor; the carried string is the canonical
date string the parser returns. -/
inductive DateInput where
  | datetime (s : String)
  | date (s : String)
  | time (s : String)
  | duration (s : String)
  deriving DecidableEq

/-- Whether a `DateInput` parses as a full date-time. -/
def DateInput.isDatetime : DateInput → Bool
  | .datetime _ => true
  | _ => false

/-- Modelled from the spec: `iso8601.parse` parses and normalizes an ISO-8601
string, returning the canonical string and its temporal subtype (a third
returned component, the parsed `datetime` object, is never used by the
embedded callers and is omitted). -/
def iso8601.parse : DateInput → String × TemporalType
  | .datetime s => (s, TemporalType.DATETIME)
  | .date s => (s, TemporalType.DATE)
  | .time s => (s, TemporalType.TIME)
  | .duration s => (s, TemporalType.DURATION)

/-- An entity selector of a subscription (`EntitySelector` dataclass):
a type plus an optional id and id-pattern. -/
structure EntitySelector where
  type : String
  id : Option String
  id_pattern : Option String
  deriving DecidableEq

/-- A Python value stored in one of the built documents.  Geometry objects
(`geojson.Point` and friends) and raw `EntitySelector` objects get their own
constructors because the source stores them unserialized inside dicts;
`entityRef id` stands for an `ngsildclient.model.entity.Entity` object whose
identifier is `id`; `obj` stands for any other Python object. -/
inductive Value where
  | null
  | bool (b : Bool)
  | int (n : Int)
  | num (q : Rat)
  | str (s : String)
  | strlist (l : List String)
  | tup (l : List Value)
  | arr (l : List Value)
  | dict (d : List (String × Value))
  | point (coordinates : List Value)
  | lineString (coordinates : List Value)
  | polygon (coordinates : List Value)
  | multiPoint (coordinates : List Value)
  | selectors (l : List EntitySelector)
  | entityRef (id : String)
  | obj

/-- A Python dict with string keys, as an association list in insertion order. -/
abbrev Dict := List (String × Value)

/-- Python truthiness of an embedded value (`if self.x:`). -/
def Value.truthy : Value → Bool
  | .null => false
  | .bool b => b
  | .int n => n != 0
  | .num q => q != 0
  | .str s => !s.isEmpty
  | .strlist l => !l.isEmpty
  | .tup l => !l.isEmpty
  | .arr l => !l.isEmpty
  | .dict d => !d.isEmpty
  | .point _ => true
  | .lineString _ => true
  | .polygon _ => true
  | .multiPoint _ => true
  | .selectors l => !l.isEmpty
  | .entityRef _ => true
  | .obj => true

/-- Whether the value is one of the four recognized geometry classes
(`Point`, `LineString`, `Polygon`, `MultiPoint`). -/
def Value.isGeometry : Value → Bool
  | .point _ => true
  | .lineString _ => true
  | .polygon _ => true
  | .multiPoint _ => true
  | _ => false

/-- Membership of a key in a dict. -/
def Dict.hasKey (d : Dict) (k : String) : Bool :=
  d.any (fun kv => decide (kv.1 = k))

/-- First value stored under a key. -/
def Dict.get? : Dict → String → Option Value
  | [], _ => none
  | kv :: rest, k => if kv.1 = k then some kv.2 else Dict.get? rest k

/-- Python `d[k] = v` on a dict that may already hold `k`: the value is
replaced in place if the key exists, otherwise the pair is appended. -/
def Dict.update (d : Dict) (k : String) (v : Value) : Dict :=
  if Dict.hasKey d k then d.map (fun kv => if kv.1 = k then (k, v) else kv)
  else d ++ [(k, v)]

/-- Python `a |= b` on dicts: every pair of `b` is written into `a`. -/
def Dict.merge (a b : Dict) : Dict :=
  b.foldl (fun acc kv => Dict.update acc kv.1 kv.2) a

/-- Python truthiness of an optional string (`None` and `""` are falsy). -/
def truthyOptStr : Option String → Bool
  | some s => !s.isEmpty
  | none => false

/-- Python truthiness of an optional list (`None` and `[]` are falsy). -/
def truthyOptList {α : Type} : Option (List α) → Bool
  | some l => !l.isEmpty
  | none => false

/-- Python truthiness of an optional int (`None` and `0` are falsy). -/
def truthyOptInt : Option Int → Bool
  | some n => n != 0
  | none => false

/-- Python truthiness of an optional bool (`None` and `False` are falsy). -/
def truthyOptBool : Option Bool → Bool
  | some b => b
  | none => false

/-- The stored string of an optional string field, for dict entries that are
only emitted when the field is truthy. -/
def optStrVal : Option String → Value
  | some s => .str s
  | none => .null

/-- The stored list of an optional string-list field. -/
def strlistVal : Option (List String) → Value
  | some l => .strlist l
  | none => .null

/-- A conditional dict entry: `if c: d[k] = v` translated to the segment of
the association list the statement contributes. -/
def entryIf (c : Bool) (k : String) (v : Value) : Dict :=
  if c then [(k, v)] else []

/-- Modelled from the spec: the canonical NGSI-LD URN prefix for identifiers. -/
def URN_PREFIX : String := "urn:ngsi-ld:"

/-- Modelled from the spec (`utils/urn.py` is not among the provided sources):
whether an identifier already carries the canonical URN prefix. -/
def Urn.isPrefixed (s : String) : Bool :=
  List.isPrefixOf URN_PREFIX.data s.data

/-- Modelled from the spec: `Urn.prefix` resolves an identifier to its
URN-prefixed form; an already-prefixed identifier is returned unchanged
(idempotent prefixing). -/
def Urn.prefixId (s : String) : String :=
  if Urn.isPrefixed s then s else URN_PREFIX ++ s

/-- Modelled from the spec: `Urn.prefix` as applied to an optional identifier
(the multi-attribute builder passes `v.datasetid` to it unguarded, so the
argument may be `None`); an absent identifier maps to `None`, i.e. `null`. -/
def Urn.prefixOptId : Option String → Value
  | some s => .str (Urn.prefixId s)
  | none => .null

/-- Modelled from the spec (`utils/url.py` is not among the provided sources):
`url.escape` percent-encodes a string; embedded as percent-encoding of a
representative set of reserved characters. -/
def url.escapeChar (c : Char) : String :=
  if c = ' ' then "%20"
  else if c = '"' then "%22"
  else if c = '<' then "%3C"
  else if c = '>' then "%3E"
  else if c = ';' then "%3B"
  else String.singleton c

/-- Modelled from the spec: URL-escaping of a whole string. -/
def url.escape (s : String) : String :=
  String.join (s.data.map url.escapeChar)

/-- The four NGSI-LD attribute kinds (`AttrType` in `model/constants.py`,
which is not among the provided sources; the wire strings follow the spec). -/
inductive AttrType where
  | PROP
  | TEMPORAL
  | GEO
  | REL
  deriving DecidableEq

/-- The wire string of an attribute kind (its `.value` in the Python enum). -/
def AttrType.val : AttrType → String
  | .PROP => "Property"
  | .TEMPORAL => "TemporalProperty"
  | .GEO => "GeoProperty"
  | .REL => "Relationship"

/-- Modelled from the spec: the metadata key names from `model/constants.py`. -/
def META_ATTR_UNITCODE : String := "unitCode"

/-- Modelled from the spec: the `observedAt` metadata key name. -/
def META_ATTR_OBSERVED_AT : String := "observedAt"

/-- Modelled from the spec: the `datasetId` metadata key name. -/
def META_ATTR_DATASET_ID : String := "datasetId"

/-- Modelled from the spec: the NGSI-LD core context URI
(`CORE_CONTEXT` in `model/constants.py`). -/
def CORE_CONTEXT : String :=
  "https://uri.etsi.org/ngsi-ld/v1/ngsi-ld-core-context.jsonld"

/-- The `AttrValue` value object: a raw value plus optional metadata
(unit code, observation timestamp, dataset id, free-form user data). -/
structure AttrValue where
  value : Value
  unitcode : Option String
  observedat : Option DateInput
  datasetid : Option String
  userdata : Dict

/-- `NgsiDict._process_observedat`: parse the supplied timestamp and require
the full date-time subtype, raising `NgsiDateFormatError` otherwise. -/
def NgsiDict._process_observedat (observedat : DateInput) : Except NgsiErr String :=
  let r := iso8601.parse observedat
  if r.2 ≠ TemporalType.DATETIME then .error .NgsiDateFormatError
  else .ok r.1

/-- The value-mapping step of `NgsiDict._build_property` (lines 139-145):
`int`/`float`/`bool`/`list`/`dict` instances pass through (geometry objects
and selector lists are dict resp. list instances in Python, so they pass),
strings are optionally URL-escaped, anything else raises
`NgsiUnmatchedAttributeTypeError`.  A Python tuple is not a `list` instance,
so it falls through to the error branch. -/
def NgsiDict.map_raw_value (value : Value) (escape : Bool) : Except NgsiErr Value :=
  match value with
  | .int n => .ok (.int n)
  | .num q => .ok (.num q)
  | .bool b => .ok (.bool b)
  | .strlist l => .ok (.strlist l)
  | .arr l => .ok (.arr l)
  | .selectors l => .ok (.selectors l)
  | .dict d => .ok (.dict d)
  | .point c => .ok (.point c)
  | .lineString c => .ok (.lineString c)
  | .polygon c => .ok (.polygon c)
  | .multiPoint c => .ok (.multiPoint c)
  | .str s => .ok (.str (if escape then url.escape s else s))
  | .tup _ => .error .NgsiUnmatchedAttributeTypeError
  | .null => .error .NgsiUnmatchedAttributeTypeError
  | .entityRef _ => .error .NgsiUnmatchedAttributeTypeError
  | .obj => .error .NgsiUnmatchedAttributeTypeError

/-- A guarded optional entry: a statement of the form
`if x is not None: d[k] = f(x)` contributes this segment to the dict. -/
def optEntry {α : Type} (o : Option α) (k : String) (f : α → Value) : Dict :=
  match o with
  | some x => [(k, f x)]
  | none => []

/-- The `observedAt` entry contributed when an `observedat` argument was
supplied (`if ... is not None: d[META_ATTR_OBSERVED_AT] =
NgsiDict._process_observedat(...)`); the validation inside can raise, which
aborts the whole build. -/
def obsEntry (o : Option DateInput) : Except NgsiErr Dict :=
  match o with
  | some oa => (NgsiDict._process_observedat oa).map
      (fun ds => [(META_ATTR_OBSERVED_AT, Value.str ds)])
  | none => .ok []

/-- The trailing `if userdata: property |= userdata; return property` step
shared by the attribute builders. -/
def NgsiDict.attach_userdata (p : Dict) (userdata : Dict) : Except NgsiErr Dict :=
  if userdata.isEmpty then .ok p else .ok (Dict.merge p userdata)

/-- `NgsiDict._build_property`: build a single Property sub-document, with
`type` and `value` set first, then `unitCode`, `observedAt` and `datasetId`
each added only when the corresponding `AttrValue` field is not `None`, and
finally the user data merged on top when non-empty. -/
def NgsiDict._build_property (attrV : AttrValue) (escape : Bool) : Except NgsiErr Dict :=
  match NgsiDict.map_raw_value attrV.value escape with
  | .error e => .error e
  | .ok v =>
    match obsEntry attrV.observedat with
    | .error e => .error e
    | .ok obs =>
      NgsiDict.attach_userdata
        ([("type", Value.str AttrType.PROP.val), ("value", v)]
          ++ optEntry attrV.unitcode META_ATTR_UNITCODE Value.str
          ++ obs
          ++ optEntry attrV.datasetid META_ATTR_DATASET_ID
               (fun di => Value.str (Urn.prefixId di)))
        attrV.userdata

/-- The target resolution of the `_m__build_property` loop body (line 168 of
`ngsidict.py`), applied only in `REL` mode: the identifier of an entity-like
target, or the string target itself, is URN-prefixed; Python's `Urn.prefix`
raises on any other target. -/
def NgsiDict.m_resolve_target (attrtype : AttrType) (value : Value) : Except NgsiErr Value :=
  if attrtype = AttrType.REL then
    match value with
    | .entityRef id => .ok (Value.str (Urn.prefixId id))
    | .str s => .ok (Value.str (Urn.prefixId s))
    | _ => .error .ValueError
  else .ok value

/-- One iteration of the `_m__build_property` loop: the payload key `attrkey`
is `object` in `REL` mode and `value` otherwise; the dataset id entry is
written unconditionally. -/
def NgsiDict._m__build_one (v : AttrValue) (attrtype : AttrType) : Except NgsiErr Dict :=
  match NgsiDict.m_resolve_target attrtype v.value with
  | .error e => .error e
  | .ok vv =>
    match obsEntry v.observedat with
    | .error e => .error e
    | .ok obs =>
      NgsiDict.attach_userdata
        ([("type", Value.str attrtype.val),
          ((if attrtype = AttrType.REL then "object" else "value"), vv),
          (META_ATTR_DATASET_ID, Urn.prefixOptId v.datasetid)]
          ++ optEntry v.unitcode META_ATTR_UNITCODE Value.str
          ++ obs)
        v.userdata

/-- `NgsiDict._m__build_property`: the multi-attribute (array) form, one
sub-document per `AttrValue`, accumulated in order. -/
def NgsiDict._m__build_property (values : List AttrValue) (attrtype : AttrType) :
    Except NgsiErr (List Dict) :=
  match values with
  | [] => .ok []
  | v :: rest =>
    match NgsiDict._m__build_one v attrtype with
    | .error e => .error e
    | .ok p =>
      match NgsiDict._m__build_property rest attrtype with
      | .error e => .error e
      | .ok ps => .ok (p :: ps)

/-- The geometry resolution of `NgsiDict._build_geoproperty` (lines 190-196):
a recognized geometry object is kept as is; a 2-tuple is read as `(lat, lon)`
and converted to `Point((lon, lat))` — note the coordinate swap; anything else
raises `NgsiUnmatchedAttributeTypeError`. -/
def NgsiDict.geo_resolve (value : Value) : Except NgsiErr Value :=
  if Value.isGeometry value then .ok value
  else match value with
    | .tup [lat, lon] => .ok (Value.point [lon, lat])
    | _ => .error .NgsiUnmatchedAttributeTypeError

/-- `NgsiDict._build_geoproperty`: resolve the geometry, then attach
`observedAt` and `datasetId` under the same guards as for properties. -/
def NgsiDict._build_geoproperty (value : Value) (observedat : Option DateInput)
    (datasetid : Option String) : Except NgsiErr Dict :=
  match NgsiDict.geo_resolve value with
  | .error e => .error e
  | .ok geometry =>
    match obsEntry observedat with
    | .error e => .error e
    | .ok obs =>
      .ok ([("type", Value.str AttrType.GEO.val), ("value", geometry)]
        ++ obs
        ++ optEntry datasetid META_ATTR_DATASET_ID
             (fun di => Value.str (Urn.prefixId di)))

/-- `NgsiDict._build_temporal_property`: wrap the parsed value as
`{"@type": subtype, "@value": canonical}`. -/
def NgsiDict._build_temporal_property (value : DateInput) : Dict :=
  let r := iso8601.parse value
  [("type", Value.str AttrType.TEMPORAL.val),
   ("value", Value.dict [("@type", Value.str r.2.val), ("@value", Value.str r.1)])]

/-- A relationship target: a raw identifier string or an entity-like object
whose identifier is extracted. -/
inductive RelTarget where
  | str (s : String)
  | entity (id : String)
  deriving DecidableEq

/-- The resolution a relationship target undergoes:
`Urn.prefix(v.id) if isinstance(v, Entity) else Urn.prefix(v)`. -/
def RelTarget.resolve : RelTarget → String
  | .str s => Urn.prefixId s
  | .entity id => Urn.prefixId id

/-- The `value` argument of `NgsiDict._build_relationship`: a single target or
a list of targets. -/
inductive RelValue where
  | single (t : RelTarget)
  | list (ts : List RelTarget)
  deriving DecidableEq

/-- The `object` payload entry of `NgsiDict._build_relationship`: the
URN-prefixed identifier, or the list of URN-prefixed identifiers when the
value is a list. -/
def NgsiDict.rel_object_entry (value : RelValue) : Dict :=
  match value with
  | .list ts => [("object", Value.arr (ts.map (fun t => Value.str t.resolve)))]
  | .single t => [("object", Value.str t.resolve)]

/-- `NgsiDict._build_relationship`: `type`, then the `object` entry, the
validated `observedAt`, and — because in the source the user-data merge is
nested inside the `datasetid is not None` branch — only when a dataset id was
supplied, the `datasetId` entry followed by the user-data merge. -/
def NgsiDict._build_relationship (value : RelValue) (observedat : Option DateInput)
    (datasetid : Option String) (userdata : Dict) : Except NgsiErr Dict :=
  match obsEntry observedat with
  | .error e => .error e
  | .ok obs =>
    match datasetid with
    | some di =>
      NgsiDict.attach_userdata
        ([("type", Value.str AttrType.REL.val)] ++ NgsiDict.rel_object_entry value ++ obs
          ++ [(META_ATTR_DATASET_ID, Value.str (Urn.prefixId di))])
        userdata
    | none =>
      .ok ([("type", Value.str AttrType.REL.val)] ++ NgsiDict.rel_object_entry value ++ obs)

/-- The notification `Endpoint` dataclass of the subscription helper. -/
structure Endpoint where
  uri : String
  accept : String
  timeout : Int
  cooldown : Int
  receiver_info : Option Dict
  notifier_info : Option Dict

/-- Constructing an `Endpoint` with the dataclass defaults, as
`SubscriptionBuilder.__init__` does: `Endpoint(uri=uri, receiver_info=receiver_headers)`. -/
def Endpoint.mk_default (uri : String) (receiver_info : Option Dict) : Endpoint :=
  ⟨uri, "application/ld+json", 0, 0, receiver_info, none⟩

/-- The local dict `d` that `Endpoint.to_dict` assembles (lines 58-69 of
`subscription.py`). -/
def Endpoint.build_d (e : Endpoint) : Dict :=
  [("uri", Value.str e.uri), ("accept", Value.str e.accept)]
  ++ entryIf (decide (e.timeout > 0)) "timeout" (Value.int e.timeout)
  ++ entryIf (decide (e.cooldown > 0)) "cooldown" (Value.int e.cooldown)
  ++ (match e.receiver_info with
      | some ri => entryIf (!ri.isEmpty) "receiverInfo"
          (Value.arr (ri.map (fun kv => Value.dict [kv])))
      | none => [])
  ++ (match e.notifier_info with
      | some ni => entryIf (!ni.isEmpty) "notifierInfo"
          (Value.arr (ni.map (fun kv => Value.dict [kv])))
      | none => [])

/-- `Endpoint.to_dict` assembles the local dict `d` but has no `return`
statement, so in Python the call returns `None`. -/
def Endpoint.to_dict (e : Endpoint) : Value :=
  let _d : Dict := Endpoint.build_d e
  Value.null

/-- The `NotificationParams` dataclass. -/
structure NotificationParams where
  endpoint : Endpoint
  attrs : Option (List String)
  format : String
  sys_attrs : Bool
  show_changes : Bool

/-- `NotificationParams.to_dict`: the `endpoint` entry stores the result of
`Endpoint.to_dict`, which is `None`. -/
def NotificationParams.to_dict (p : NotificationParams) : Dict :=
  entryIf (truthyOptList p.attrs) "attributes" (strlistVal p.attrs)
  ++ [("format", Value.str p.format)]
  ++ entryIf p.sys_attrs "sysAttrs" (Value.bool p.sys_attrs)
  ++ entryIf p.show_changes "showChanges" (Value.bool p.show_changes)
  ++ [("endpoint", Endpoint.to_dict p.endpoint)]

/-- The `Subscription` dataclass (the extended definition actually used by the
builder).  `expires_at` is kept as its already-serialized string — the
`datetime` branch of `to_dict` converts through `iso8601.from_datetime`, which
is modelled as pre-applied. -/
structure Subscription where
  notification : NotificationParams
  id : Option String
  type : String
  name : Option String
  description : Option String
  entities : List EntitySelector
  watched_attrs : Option (List String)
  notification_trigger : Option (List String)
  time_interval : Int
  query : Option String
  geo_query : Option String
  csf : Option String
  active : Bool
  expires_at : Option String
  throttling : Int
  temporal_query : Option String
  scope : Option String
  lang : Option String
  ctx : String

/-- `Subscription.to_dict` (lines 116-154): each `if` contributes its entry in
source order.  Note that `timeInterval` is emitted only when positive and no
watched attributes are set, `throttling` only when positive and
`time_interval` is falsy (zero), `geo_query` is never emitted, and the `lang`
entry erroneously tests and stores `self.scope` (lines 148-149 of the source). -/
def Subscription.to_dict (s : Subscription) : Dict :=
  entryIf (truthyOptStr s.id) "id" (optStrVal s.id)
  ++ [("type", Value.str s.type)]
  ++ entryIf (truthyOptStr s.name) "subscriptionName" (optStrVal s.name)
  ++ entryIf (truthyOptStr s.description) "description" (optStrVal s.description)
  ++ entryIf (!s.entities.isEmpty) "entities" (Value.selectors s.entities)
  ++ entryIf (truthyOptList s.watched_attrs) "watchedAttributes" (strlistVal s.watched_attrs)
  ++ entryIf (truthyOptList s.notification_trigger) "notificationTrigger"
       (strlistVal s.notification_trigger)
  ++ entryIf (decide (s.time_interval > 0) && !truthyOptList s.watched_attrs)
       "timeInterval" (Value.int s.time_interval)
  ++ entryIf (truthyOptStr s.query) "q" (optStrVal s.query)
  ++ entryIf (truthyOptStr s.csf) "csf" (optStrVal s.csf)
  ++ entryIf (truthyOptStr s.expires_at) "expiresAt" (optStrVal s.expires_at)
  ++ entryIf (decide (s.throttling > 0) && decide (s.time_interval = 0))
       "throttling" (Value.int s.throttling)
  ++ entryIf (truthyOptStr s.temporal_query) "temporalQ" (optStrVal s.temporal_query)
  ++ entryIf (truthyOptStr s.scope) "scopeQ" (optStrVal s.scope)
  ++ entryIf (truthyOptStr s.scope) "lang" (optStrVal s.scope)
  ++ [("isActive", Value.bool s.active),
      ("notification", Value.dict (NotificationParams.to_dict s.notification)),
      ("@context", Value.str s.ctx)]

/-- `SubscriptionBuilder.__init__`: wraps a fresh `Subscription` whose
notification points at `Endpoint(uri, receiver_info=receiver_headers)` and
whose `entities` list is set to `[]`; every other field keeps its dataclass
default. -/
def SubscriptionBuilder.init (uri : String) (receiver_headers : Option Dict) : Subscription :=
  { notification := ⟨Endpoint.mk_default uri receiver_headers, none, "normalized", false, false⟩
    id := none
    type := "Subscription"
    name := none
    description := none
    entities := []
    watched_attrs := none
    notification_trigger := none
    time_interval := 0
    query := none
    geo_query := none
    csf := none
    active := true
    expires_at := none
    throttling := 0
    temporal_query := none
    scope := none
    lang := none
    ctx := CORE_CONTEXT }

/-- `SubscriptionBuilder.select_entities`: appends an `EntitySelector`
(entity selection accumulates rather than replaces). -/
def SubscriptionBuilder.select_entities (b : Subscription) (type : String)
    (id : Option String) (id_pattern : Option String) : Subscription :=
  { b with entities := b.entities ++ [⟨type, id, id_pattern⟩] }

/-- `SubscriptionBuilder.watch`: an empty list raises `ValueError` before any
assignment, so the stored watched-attribute state is left unchanged; a
non-empty list replaces it. -/
def SubscriptionBuilder.watch (b : Subscription) (value : List String) :
    Except NgsiErr Subscription :=
  if value = [] then .error .ValueError
  else .ok { b with watched_attrs := some value }

/-- `SubscriptionBuilder.notif`: same empty-list guard, for the notification
attribute filter. -/
def SubscriptionBuilder.notif (b : Subscription) (value : List String) :
    Except NgsiErr Subscription :=
  if value = [] then .error .ValueError
  else .ok { b with notification := { b.notification with attrs := some value } }

/-- `SubscriptionBuilder.query`: URL-escapes the argument before storing. -/
def SubscriptionBuilder.query (b : Subscription) (value : String) : Subscription :=
  { b with query := some (url.escape value) }

/-- `SubscriptionBuilder.build`: raises exactly when no entity selector was
added (`entities == []`) and no watched-attribute list was set
(`watched_attrs is None`); otherwise serializes. -/
def SubscriptionBuilder.build (b : Subscription) : Except NgsiErr Dict :=
  if b.entities = [] ∧ b.watched_attrs = none then .error .ValueError
  else .ok (Subscription.to_dict b)

/-- A registration `TimeInterval`; the constructor converts datetimes through
`iso8601.from_datetime`, modelled as the already-formatted strings. -/
structure TimeInterval where
  start_at : String
  end_at : Option String

/-- `TimeInterval.to_dict`. -/
def TimeInterval.to_dict (t : TimeInterval) : Dict :=
  [("startAt", Value.str t.start_at)]
  ++ entryIf (truthyOptStr t.end_at) "endAt" (optStrVal t.end_at)

/-- `RegistrationManagementInfo` state after `__init__`.  The declared
dataclass fields `local_only`, `cache_duration` and `timeout` always exist
(class attribute default `None` when `__init__` skipped the assignment), so
`none` stands for the value `None`.  The `cooldown` branch of `__init__`
instead assigns the misspelled attribute `cooldonw`, which has no class-level
default: here `none` means the attribute does not exist at all, so that
reading it raises `AttributeError`. -/
structure RegistrationManagementInfo where
  local_only : Option Bool
  cache_duration : Option String
  timeout : Option Int
  cooldonw : Option Int

/-- The `if x: if x < 0: raise ValueError; self.<attr> = x` step of
`RegistrationManagementInfo.__init__`, shared by its `timeout` and `cooldown`
arguments: a falsy (absent or zero) argument leaves the attribute untouched,
a negative one raises, a positive one is stored. -/
def RegistrationManagementInfo.check_positive (x : Option Int) :
    Except NgsiErr (Option Int) :=
  match x with
  | some t => if t ≠ 0 then (if t < 0 then .error .ValueError else .ok (some t))
              else .ok none
  | none => .ok none

/-- `RegistrationManagementInfo.__init__` (lines 127-139): each argument is
stored only when truthy; a negative `timeout` or `cooldown` raises
`ValueError`; a truthy `cooldown` is stored under the misspelled name
`cooldonw`.  `cache_duration` arrives as a `timedelta` and is stored as its
ISO duration string, modelled as the pre-formatted string. -/
def RegistrationManagementInfo.init (local_only : Option Bool)
    (cache_duration : Option String) (timeout : Option Int) (cooldown : Option Int) :
    Except NgsiErr RegistrationManagementInfo :=
  match RegistrationManagementInfo.check_positive timeout with
  | .error e => .error e
  | .ok tmo =>
    match RegistrationManagementInfo.check_positive cooldown with
    | .error e => .error e
    | .ok cw =>
      .ok ⟨(if truthyOptBool local_only then local_only else none),
           (if truthyOptStr cache_duration then cache_duration else none), tmo, cw⟩

/-- `RegistrationManagementInfo.to_dict` (lines 141-151): the first three
entries read the declared fields; the last line reads `self.cooldonw`, which
raises `AttributeError` whenever `__init__` never assigned it, and otherwise
emits the (correctly spelled) `cooldown` key. -/
def RegistrationManagementInfo.to_dict (m : RegistrationManagementInfo) :
    Except NgsiErr Dict :=
  let d : Dict :=
    entryIf (truthyOptBool m.local_only) "localOnly" (Value.bool true)
    ++ entryIf (truthyOptStr m.cache_duration) "cacheDuration" (optStrVal m.cache_duration)
    ++ (match m.timeout with
        | some t => entryIf (t != 0) "timeout" (Value.int t)
        | none => [])
  match m.cooldonw with
  | none => .error .AttributeError
  | some c => .ok (d ++ entryIf (c != 0) "cooldown" (Value.int c))

/-- The nested `RegistrationInfo.EntityInfo`: an entity type (a string or a
list of strings) with optional id pattern and id. -/
structure EntityInfo where
  type : Value
  id_pattern : Option String
  id : Option String

/-- `EntityInfo.to_dict`. -/
def EntityInfo.to_dict (e : EntityInfo) : Dict :=
  [("type", e.type)]
  ++ entryIf (truthyOptStr e.id) "id" (optStrVal e.id)
  ++ entryIf (truthyOptStr e.id_pattern) "idPattern" (optStrVal e.id_pattern)

/-- `RegistrationInfo`: the three selector lists are each either absent or
non-empty. -/
structure RegistrationInfo where
  entities : Option (List EntityInfo)
  property_names : Option (List String)
  relationship_names : Option (List String)

/-- `RegistrationInfo.__init__`: an explicitly empty list for any of the three
selectors raises `ValueError`; falsy arguments leave the field `None`. -/
def RegistrationInfo.init (entities : Option (List EntityInfo))
    (property_names : Option (List String)) (relationship_names : Option (List String)) :
    Except NgsiErr RegistrationInfo :=
  if (match entities with | some [] => true | _ => false)
     || (match property_names with | some [] => true | _ => false)
     || (match relationship_names with | some [] => true | _ => false) then
    .error .ValueError
  else
    .ok ⟨(if truthyOptList entities then entities else none),
         (if truthyOptList property_names then property_names else none),
         (if truthyOptList relationship_names then relationship_names else none)⟩

/-- `RegistrationInfo.to_dict`. -/
def RegistrationInfo.to_dict (r : RegistrationInfo) : Dict :=
  (match r.entities with
   | some es => entryIf (!es.isEmpty) "entities" (Value.arr (es.map (fun e => Value.dict e.to_dict)))
   | none => [])
  ++ entryIf (truthyOptList r.property_names) "propertyNames" (strlistVal r.property_names)
  ++ entryIf (truthyOptList r.relationship_names) "relationshipNames"
       (strlistVal r.relationship_names)

/-- The `CSourceRegistration` dataclass.  String-or-list fields (`context`,
`scope`) and raw geometry fields are kept as `Value`s; `expires_at` and
`refresh_rate` hold their already-formatted strings. -/
structure CSourceRegistration where
  endpoint : String
  information : List RegistrationInfo
  context : Value
  id : Option String
  type : String
  registration_name : Option String
  description : Option String
  tenant : Option String
  observation_interval : Option TimeInterval
  management_interval : Option TimeInterval
  location : Value
  observation_space : Value
  operation_space : Value
  expires_at : Option String
  context_source_info : Dict
  scope : Value
  mode : Option String
  operations : Option (List String)
  refresh_rate : Option String
  management : Option RegistrationManagementInfo
  other_properties : Dict

/-- `CSourceRegistration.to_dict` (lines 227-270): entries in source order;
`endpoint` and `type` are written unconditionally, `management` is serialized
through `RegistrationManagementInfo.to_dict` (which can raise), the open-ended
`other_properties` are written on top, and `@context` is written last. -/
def CSourceRegistration.to_dict (r : CSourceRegistration) : Except NgsiErr Dict :=
  let d : Dict :=
    entryIf (truthyOptStr r.id) "id" (optStrVal r.id)
    ++ [("type", Value.str r.type)]
    ++ entryIf (truthyOptStr r.registration_name) "registrationName" (optStrVal r.registration_name)
    ++ entryIf (truthyOptStr r.description) "description" (optStrVal r.description)
    ++ entryIf (!r.information.isEmpty) "information"
         (Value.arr (r.information.map (fun i => Value.dict i.to_dict)))
    ++ entryIf (truthyOptStr r.tenant) "tenant" (optStrVal r.tenant)
    ++ (match r.observation_interval with
        | some t => [("observationInterval", Value.dict t.to_dict)]
        | none => [])
    ++ (match r.management_interval with
        | some t => [("managementInterval", Value.dict t.to_dict)]
        | none => [])
    ++ entryIf r.location.truthy "location" r.location
    ++ entryIf r.observation_space.truthy "observationSpace" r.observation_space
    ++ entryIf r.operation_space.truthy "operationSpace" r.operation_space
    ++ entryIf (truthyOptStr r.expires_at) "expiresAt" (optStrVal r.expires_at)
    ++ [("endpoint", Value.str r.endpoint)]
    ++ entryIf (!r.context_source_info.isEmpty) "contextSourceInfo"
         (Value.dict r.context_source_info)
    ++ entryIf r.scope.truthy "scope" r.scope
    ++ entryIf (truthyOptStr r.mode) "mode" (optStrVal r.mode)
    ++ entryIf (truthyOptList r.operations) "operations" (strlistVal r.operations)
    ++ entryIf (truthyOptStr r.refresh_rate) "refreshRate" (optStrVal r.refresh_rate)
  match (match r.management with
         | some m => (RegistrationManagementInfo.to_dict m).map
             (fun md => d ++ [("management", Value.dict md)])
         | none => .ok d : Except NgsiErr Dict) with
  | .error e => .error e
  | .ok d =>
    let d := if r.other_properties.isEmpty then d else Dict.merge d r.other_properties
    .ok (Dict.update d "@context" r.context)

/-- The `information` constructor argument of `CSourceRegistrationBuilder`:
a single `RegistrationInfo`, a list of them, or any other object (rejected). -/
inductive RegInfoArg where
  | single (ri : RegistrationInfo)
  | list (l : List RegistrationInfo)
  | other

/-- `CSourceRegistration(endpoint, information, context)` as constructed by
`CSourceRegistrationBuilder.__init__`, with the dataclass defaults for every
other field. -/
def CSourceRegistrationBuilder.mk_state (endpoint : String)
    (information : List RegistrationInfo) (context : Value) : CSourceRegistration :=
    { endpoint := endpoint
      information := information
      context := context
      id := none
      type := "ContextSourceRegistration"
      registration_name := none
      description := none
      tenant := none
      observation_interval := none
      management_interval := none
      location := Value.null
      observation_space := Value.null
      operation_space := Value.null
      expires_at := none
      context_source_info := []
      scope := Value.null
      mode := none
      operations := none
      refresh_rate := none
      management := none
      other_properties := [] }

/-- `CSourceRegistrationBuilder.__init__`: a single `RegistrationInfo` is
wrapped in a one-element list; a list is taken as is; any other `information`
raises `ValueError`.  (The endpoint check `not isinstance(endpoint, str) and
not url.isurl(endpoint)` can never fire for a string argument, which the
embedding's typing already guarantees.) -/
def CSourceRegistrationBuilder.init (endpoint : String) (information : RegInfoArg)
    (context : Value) : Except NgsiErr CSourceRegistration :=
  match information with
  | .single ri => .ok (CSourceRegistrationBuilder.mk_state endpoint [ri] context)
  | .list l => .ok (CSourceRegistrationBuilder.mk_state endpoint l context)
  | .other => .error .ValueError

/-- `CSourceRegistrationBuilder.mode` (lines 377-381): the guard is
`not isinstance(value, str) and value not in [...]` — with `and`, not `or` —
so a string is never rejected, whatever its content, while a non-string (which
equals none of the four enumeration strings under Python `==`) always raises
`ValueError`. -/
def CSourceRegistrationBuilder.mode (r : CSourceRegistration) (value : Value) :
    Except NgsiErr CSourceRegistration :=
  let is_str : Bool := match value with | .str _ => true | _ => false
  let in_modes : Bool := match value with
    | .str s => ["inclusive", "exclusive", "redirect", "auxiliary"].contains s
    | _ => false
  if !is_str && !in_modes then
    .error .ValueError
  else
    .ok { r with mode := match value with | .str s => some s | _ => r.mode }

/-- `CSourceRegistrationBuilder.management`: constructs the
`RegistrationManagementInfo` (whose `__init__` may raise) and stores it. -/
def CSourceRegistrationBuilder.management (r : CSourceRegistration)
    (local_only : Option Bool) (cache_duration : Option String)
    (time : Option Int) (cooldown : Option Int) : Except NgsiErr CSourceRegistration :=
  match RegistrationManagementInfo.init local_only cache_duration time cooldown with
  | .error e => .error e
  | .ok m => .ok { r with management := some m }

/-- `CSourceRegistrationBuilder.build` (lines 405-408): raises unless both
`endpoint` and `information` are truthy; on success it returns the
`CSourceRegistration` object itself (not its serialized dict). -/
def CSourceRegistrationBuilder.build (r : CSourceRegistration) :
    Except NgsiErr CSourceRegistration :=
  if r.endpoint.isEmpty || r.information.isEmpty then .error .ValueError
  else .ok r

theorem Dict.hasKey_append (a b : Dict) (k : String) :
    Dict.hasKey (a ++ b) k = (Dict.hasKey a k || Dict.hasKey b k) := by
  simp [Dict.hasKey, List.any_append]

theorem Dict.hasKey_entryIf (c : Bool) (k k' : String) (v : Value) :
    Dict.hasKey (entryIf c k v) k' = (c && decide (k = k')) := by
  cases c <;> simp [entryIf, Dict.hasKey]

theorem Dict.hasKey_nil (k : String) : Dict.hasKey [] k = false := rfl

theorem Dict.hasKey_cons (kv : String × Value) (d : Dict) (k : String) :
    Dict.hasKey (kv :: d) k = (decide (kv.1 = k) || Dict.hasKey d k) := by
  simp [Dict.hasKey, List.any_cons]

theorem Dict.hasKey_writeKey (d : Dict) (k' : String) (v : Value) (k : String) :
    Dict.hasKey (d.map (fun kv => if kv.1 = k' then (k', v) else kv)) k
      = Dict.hasKey d k := by
  induction d with
  | nil => rfl
  | cons kv rest ih =>
    by_cases h : kv.1 = k'
    · simp [Dict.hasKey, List.any_cons, h] at ih ⊢
      rw [ih]
    · simp [Dict.hasKey, List.any_cons, h] at ih ⊢
      rw [ih]

theorem Dict.hasKey_update (d : Dict) (k' : String) (v : Value) (k : String) :
    Dict.hasKey (Dict.update d k' v) k = (Dict.hasKey d k || decide (k' = k)) := by
  cases hB : Dict.hasKey d k'
  · have hB' : (List.any d fun kv => decide (kv.1 = k')) = false := by
      simpa [Dict.hasKey] using hB
    simp [Dict.update, Dict.hasKey, hB', List.any_append]
  · rw [Dict.update, if_pos (by simp [hB]), Dict.hasKey_writeKey]
    by_cases hk : k' = k
    · subst hk
      simp [hB]
    · simp [hk]

theorem Dict.hasKey_merge (a b : Dict) (k : String) :
    Dict.hasKey (Dict.merge a b) k = (Dict.hasKey a k || Dict.hasKey b k) := by
  induction b generalizing a with
  | nil => simp [Dict.merge, Dict.hasKey]
  | cons kv rest ih =>
    have h : Dict.merge a (kv :: rest) = Dict.merge (Dict.update a kv.1 kv.2) rest := by
      simp [Dict.merge]
    rw [h, ih, Dict.hasKey_update]
    simp [Dict.hasKey, List.any_cons, Bool.or_assoc]

theorem Dict.get?_nil (k : String) : Dict.get? [] k = none := rfl

theorem Dict.get?_cons (kv : String × Value) (d : Dict) (k : String) :
    Dict.get? (kv :: d) k = if kv.1 = k then some kv.2 else Dict.get? d k := rfl

theorem Dict.get?_append (a b : Dict) (k : String) :
    Dict.get? (a ++ b) k = (Dict.get? a k).or (Dict.get? b k) := by
  induction a with
  | nil => simp [Dict.get?]
  | cons kv rest ih => by_cases h : kv.1 = k <;> simp [Dict.get?, h, ih]

theorem Dict.get?_entryIf (c : Bool) (k k' : String) (v : Value) :
    Dict.get? (entryIf c k v) k' = if c ∧ k = k' then some v else none := by
  cases c <;> by_cases h : k = k' <;> simp [entryIf, Dict.get?, h]

/-- C7: for every Subscription state (any combination of `time_interval`,
`throttling` and `watched_attrs` values), the serialized mapping produced by
`to_dict` never contains both the `timeInterval` key and the `throttling` key:
emitting `timeInterval` requires `time_interval > 0` while emitting
`throttling` requires `time_interval` to be falsy (zero). -/
theorem C7_timeInterval_throttling_mutually_exclusive (s : Subscription) :
    ¬ (Dict.hasKey (Subscription.to_dict s) "timeInterval" = true ∧
       Dict.hasKey (Subscription.to_dict s) "throttling" = true) := by
  rintro ⟨h1, h2⟩
  simp only [Subscription.to_dict, Dict.hasKey_append, Dict.hasKey_entryIf,
    Dict.hasKey_cons, Dict.hasKey_nil, Bool.or_eq_true, Bool.and_eq_true,
    beq_iff_eq, decide_eq_true_eq, String.reduceEq, Bool.and_false,
    Bool.false_eq_true, or_false, false_or, and_false, or_self] at h1 h2
  omega

theorem Dict.hasKey_optEntry {α : Type} (o : Option α) (k : String) (f : α → Value)
    (k' : String) :
    Dict.hasKey (optEntry o k f) k' = (o.isSome && decide (k = k')) := by
  cases o <;> simp [optEntry, Dict.hasKey]

theorem obsEntry_hasKey (o : Option DateInput) (seg : Dict) (h : obsEntry o = .ok seg)
    (k : String) :
    Dict.hasKey seg k = (o.isSome && decide (META_ATTR_OBSERVED_AT = k)) := by
  cases o with
  | none =>
    simp [obsEntry] at h
    subst h
    simp [Dict.hasKey]
  | some oa =>
    cases hp : NgsiDict._process_observedat oa with
    | error e => simp [obsEntry, hp, Except.map] at h
    | ok ds =>
      simp [obsEntry, hp, Except.map] at h
      subst h
      simp [Dict.hasKey]

theorem Dict.hasKey_attach_userdata (p ud d : Dict) (k : String)
    (h : NgsiDict.attach_userdata p ud = .ok d) :
    Dict.hasKey d k = (Dict.hasKey p k || Dict.hasKey ud k) := by
  unfold NgsiDict.attach_userdata at h
  split at h
  · rename_i hud
    injection h with h
    subst h
    have : ud = [] := by simpa using hud
    subst this
    simp [Dict.hasKey]
  · injection h with h
    subst h
    simp [Dict.hasKey_merge]

theorem NgsiDict.m_build_one_datasetid (v : AttrValue) (attrtype : AttrType) (p : Dict)
    (h : NgsiDict._m__build_one v attrtype = .ok p) :
    Dict.hasKey p META_ATTR_DATASET_ID = true := by
  unfold NgsiDict._m__build_one at h
  split at h
  · exact Except.noConfusion h
  · split at h
    · exact Except.noConfusion h
    · rw [Dict.hasKey_attach_userdata _ _ _ _ h]
      simp [Dict.hasKey_cons, Dict.hasKey_nil]

theorem NgsiDict.m_build_datasetid_mem (values : List AttrValue) (attrtype : AttrType)
    (ds : List Dict) (h : NgsiDict._m__build_property values attrtype = .ok ds) :
    ∀ p ∈ ds, Dict.hasKey p META_ATTR_DATASET_ID = true := by
  induction values generalizing ds with
  | nil =>
    simp [NgsiDict._m__build_property] at h
    subst h
    simp
  | cons v rest ih =>
    unfold NgsiDict._m__build_property at h
    cases h1 : NgsiDict._m__build_one v attrtype with
    | error e => rw [h1] at h; exact Except.noConfusion h
    | ok p =>
      rw [h1] at h
      cases h2 : NgsiDict._m__build_property rest attrtype with
      | error e => rw [h2] at h; exact Except.noConfusion h
      | ok ps =>
        rw [h2] at h
        injection h with h
        subst h
        intro q hq
        rcases List.mem_cons.mp hq with hq | hq
        · subst hq
          exact NgsiDict.m_build_one_datasetid v attrtype q h1
        · exact ih ps h2 q hq

/-- C1 (amended): for the single-value builders (prop/gprop/tprop/rel), each
optional metadata key (`unitCode`, `observedAt`, `datasetId`) is present in
the output exactly when the corresponding argument was supplied non-`None`
(provided the free-form user data does not itself inject one of those keys);
in the multi-value list form this holds for `unitCode` and `observedAt`, but
the `datasetId` key is written unconditionally — it is present in every
produced sub-document even when no dataset id was supplied. -/
theorem C1_metadata_keys_presence (attrV : AttrValue) (escape : Bool) (d : Dict)
    (hu : Dict.hasKey attrV.userdata META_ATTR_UNITCODE = false)
    (ho : Dict.hasKey attrV.userdata META_ATTR_OBSERVED_AT = false)
    (hd : Dict.hasKey attrV.userdata META_ATTR_DATASET_ID = false) :
    (NgsiDict._build_property attrV escape = .ok d →
       Dict.hasKey d META_ATTR_UNITCODE = attrV.unitcode.isSome ∧
       Dict.hasKey d META_ATTR_OBSERVED_AT = attrV.observedat.isSome ∧
       Dict.hasKey d META_ATTR_DATASET_ID = attrV.datasetid.isSome) ∧
    (∀ attrtype, NgsiDict._m__build_one attrV attrtype = .ok d →
       Dict.hasKey d META_ATTR_UNITCODE = attrV.unitcode.isSome ∧
       Dict.hasKey d META_ATTR_OBSERVED_AT = attrV.observedat.isSome ∧
       Dict.hasKey d META_ATTR_DATASET_ID = true) ∧
    (∀ value oa did, NgsiDict._build_geoproperty value oa did = .ok d →
       Dict.hasKey d META_ATTR_OBSERVED_AT = oa.isSome ∧
       Dict.hasKey d META_ATTR_DATASET_ID = did.isSome ∧
       Dict.hasKey d META_ATTR_UNITCODE = false) ∧
    (∀ rv oa did, NgsiDict._build_relationship rv oa did attrV.userdata = .ok d →
       Dict.hasKey d META_ATTR_OBSERVED_AT = oa.isSome ∧
       Dict.hasKey d META_ATTR_DATASET_ID = did.isSome ∧
       Dict.hasKey d META_ATTR_UNITCODE = false) ∧
    (∀ values attrtype ds, NgsiDict._m__build_property values attrtype = .ok ds →
       ∀ p ∈ ds, Dict.hasKey p META_ATTR_DATASET_ID = true) ∧
    (∀ v, Dict.hasKey (NgsiDict._build_temporal_property v) META_ATTR_UNITCODE = false ∧
       Dict.hasKey (NgsiDict._build_temporal_property v) META_ATTR_OBSERVED_AT = false ∧
       Dict.hasKey (NgsiDict._build_temporal_property v) META_ATTR_DATASET_ID = false) := by
  simp only [META_ATTR_UNITCODE, META_ATTR_OBSERVED_AT, META_ATTR_DATASET_ID] at hu ho hd
  refine ⟨?_, ?_, ?_, ?_, fun values attrtype ds h => NgsiDict.m_build_datasetid_mem values attrtype ds h, ?_⟩
  · intro h
    unfold NgsiDict._build_property at h
    split at h
    · exact Except.noConfusion h
    · split at h
      · exact Except.noConfusion h
      · rename_i obs hobs
        have hseg := obsEntry_hasKey _ _ hobs
        have hk := fun k => Dict.hasKey_attach_userdata _ _ _ k h
        refine ⟨?_, ?_, ?_⟩ <;>
          simp [hk, hseg, Dict.hasKey_append, Dict.hasKey_cons, Dict.hasKey_nil,
            Dict.hasKey_optEntry, hu, ho, hd, META_ATTR_UNITCODE, META_ATTR_OBSERVED_AT,
            META_ATTR_DATASET_ID]
  · intro attrtype h
    unfold NgsiDict._m__build_one at h
    split at h
    · exact Except.noConfusion h
    · split at h
      · exact Except.noConfusion h
      · rename_i obs hobs
        have hseg := obsEntry_hasKey _ _ hobs
        have hk := fun k => Dict.hasKey_attach_userdata _ _ _ k h
        by_cases hrel : attrtype = AttrType.REL <;>
          refine ⟨?_, ?_, ?_⟩ <;>
          simp [hk, hseg, hrel, Dict.hasKey_append, Dict.hasKey_cons, Dict.hasKey_nil,
            Dict.hasKey_optEntry, hu, ho, hd, META_ATTR_UNITCODE, META_ATTR_OBSERVED_AT,
            META_ATTR_DATASET_ID]
  · intro value oa did h
    unfold NgsiDict._build_geoproperty at h
    split at h
    · exact Except.noConfusion h
    · split at h
      · exact Except.noConfusion h
      · rename_i obs hobs
        have hseg := obsEntry_hasKey _ _ hobs
        injection h with h
        subst h
        refine ⟨?_, ?_, ?_⟩ <;>
          simp [hseg, Dict.hasKey_append, Dict.hasKey_cons, Dict.hasKey_nil,
            Dict.hasKey_optEntry, META_ATTR_UNITCODE, META_ATTR_OBSERVED_AT,
            META_ATTR_DATASET_ID]
  · intro rv oa did h
    unfold NgsiDict._build_relationship at h
    split at h
    · exact Except.noConfusion h
    · rename_i obs hobs
      have hseg := obsEntry_hasKey _ _ hobs
      split at h
      · have hk := fun k => Dict.hasKey_attach_userdata _ _ _ k h
        refine ⟨?_, ?_, ?_⟩ <;>
          simp [hk, hseg, Dict.hasKey_append, Dict.hasKey_cons, Dict.hasKey_nil,
            NgsiDict.rel_object_entry, hu, ho, hd, META_ATTR_UNITCODE,
            META_ATTR_OBSERVED_AT, META_ATTR_DATASET_ID] <;>
          cases rv <;> simp [NgsiDict.rel_object_entry, Dict.hasKey_cons, Dict.hasKey_nil]
      · injection h with h
        subst h
        refine ⟨?_, ?_, ?_⟩ <;>
          simp [hseg, Dict.hasKey_append, Dict.hasKey_cons, Dict.hasKey_nil,
            META_ATTR_UNITCODE, META_ATTR_OBSERVED_AT, META_ATTR_DATASET_ID] <;>
          cases rv <;> simp [NgsiDict.rel_object_entry, Dict.hasKey_cons, Dict.hasKey_nil]
  · intro v
    refine ⟨?_, ?_, ?_⟩ <;>
      simp [NgsiDict._build_temporal_property, Dict.hasKey_cons, Dict.hasKey_nil,
        META_ATTR_UNITCODE, META_ATTR_OBSERVED_AT, META_ATTR_DATASET_ID]

/-- C1 counterexample: in the multi-value list form, an `AttrValue` that
supplies no dataset id still produces a sub-document containing the
`datasetId` key (stored as `None`), so the key is not present-iff-supplied. -/
theorem C1_counterexample_multi_datasetid_always_present :
    NgsiDict._m__build_property [⟨Value.int 21, none, none, none, []⟩] AttrType.PROP
      = .ok [[("type", Value.str "Property"), ("value", Value.int 21),
              ("datasetId", Value.null)]] ∧
    Dict.hasKey [(("type" : String), Value.str "Property"), ("value", Value.int 21),
      ("datasetId", Value.null)] "datasetId" = true :=
  ⟨rfl, rfl⟩

/-- Witness for C1: the single-value property built from value 7, unit code
CEL, a date-time observation timestamp and dataset id d1 carries exactly the
three metadata keys. -/
theorem C1_witness :
    Dict.hasKey [(("type" : String), Value.str "Property"), ("value", Value.int 7),
        ("unitCode", Value.str "CEL"),
        ("observedAt", Value.str "2022-01-01T00:00:00Z"),
        ("datasetId", Value.str "urn:ngsi-ld:d1")] META_ATTR_UNITCODE
      = (Option.some "CEL").isSome ∧
    Dict.hasKey [(("type" : String), Value.str "Property"), ("value", Value.int 7),
        ("unitCode", Value.str "CEL"),
        ("observedAt", Value.str "2022-01-01T00:00:00Z"),
        ("datasetId", Value.str "urn:ngsi-ld:d1")] META_ATTR_OBSERVED_AT
      = (Option.some (DateInput.datetime "2022-01-01T00:00:00Z")).isSome ∧
    Dict.hasKey [(("type" : String), Value.str "Property"), ("value", Value.int 7),
        ("unitCode", Value.str "CEL"),
        ("observedAt", Value.str "2022-01-01T00:00:00Z"),
        ("datasetId", Value.str "urn:ngsi-ld:d1")] META_ATTR_DATASET_ID
      = (Option.some "d1").isSome :=
  (C1_metadata_keys_presence
    ⟨Value.int 7, some "CEL", some (DateInput.datetime "2022-01-01T00:00:00Z"),
      some "d1", []⟩ false _ rfl rfl rfl).1 rfl

/-- C2: a 2-tuple `(lat, lon)` becomes a GeoJSON Point with the coordinates in
the swapped order `[lon, lat]` — in particular `(48.8, 2.3)` yields
`[2.3, 48.8]` — and any value that is neither a recognized geometry object nor
a 2-tuple raises `NgsiUnmatchedAttributeTypeError`. -/
theorem C2_geoproperty_swaps_lat_lon :
    (∀ lat lon : Rat,
       NgsiDict._build_geoproperty (Value.tup [Value.num lat, Value.num lon]) none none
         = .ok [("type", Value.str "GeoProperty"),
                ("value", Value.point [Value.num lon, Value.num lat])]) ∧
    (NgsiDict._build_geoproperty (Value.tup [Value.num 48.8, Value.num 2.3]) none none
       = .ok [("type", Value.str "GeoProperty"),
              ("value", Value.point [Value.num 2.3, Value.num 48.8])]) ∧
    (∀ v : Value, Value.isGeometry v = false → (∀ l, v = Value.tup l → l.length ≠ 2) →
       NgsiDict._build_geoproperty v none none
         = .error .NgsiUnmatchedAttributeTypeError) := by
  refine ⟨fun lat lon => rfl, rfl, ?_⟩
  intro v hg ht
  unfold NgsiDict._build_geoproperty NgsiDict.geo_resolve
  rw [hg]
  cases v with
  | tup l =>
    match l with
    | [] => rfl
    | [a] => rfl
    | [a, b] => exact absurd rfl (ht [a, b] rfl)
    | a :: b :: c :: rest => rfl
  | null => rfl
  | bool b => rfl
  | int n => rfl
  | num q => rfl
  | str s => rfl
  | strlist _l => rfl
  | arr l => rfl
  | dict d => rfl
  | point c => simp [Value.isGeometry] at hg
  | lineString c => simp [Value.isGeometry] at hg
  | polygon c => simp [Value.isGeometry] at hg
  | multiPoint c => simp [Value.isGeometry] at hg
  | selectors l => rfl
  | entityRef i => rfl
  | obj => rfl

/-- Witness for C2: the documented example point and a rejected non-geometry
value. -/
theorem C2_witness :
    NgsiDict._build_geoproperty (Value.tup [Value.num 48.8, Value.num 2.3]) none none
      = .ok [("type", Value.str "GeoProperty"),
             ("value", Value.point [Value.num 2.3, Value.num 48.8])] ∧
    NgsiDict._build_geoproperty (Value.str "Madrid") none none
      = .error .NgsiUnmatchedAttributeTypeError :=
  ⟨C2_geoproperty_swaps_lat_lon.2.1,
   C2_geoproperty_swaps_lat_lon.2.2 (Value.str "Madrid") rfl
     (fun _l h => Value.noConfusion h)⟩

theorem Urn.isPrefixed_append (s : String) : Urn.isPrefixed (URN_PREFIX ++ s) = true := by
  simp only [Urn.isPrefixed, String.data_append]
  exact List.isPrefixOf_iff_prefix.mpr (List.prefix_append _ _)

/-- C3: both the already-prefixed "urn:ngsi-ld:Foo:001" and the bare "Foo:001"
are stored under `object` as "urn:ngsi-ld:Foo:001"; a list of targets has
every element prefixed the same way; URN prefixing is idempotent and never
double-prefixes. -/
theorem C3_relationship_prefixing_idempotent :
    (NgsiDict._build_relationship (RelValue.single (RelTarget.str "urn:ngsi-ld:Foo:001"))
        none none []
       = .ok [("type", Value.str "Relationship"),
              ("object", Value.str "urn:ngsi-ld:Foo:001")]) ∧
    (NgsiDict._build_relationship (RelValue.single (RelTarget.str "Foo:001")) none none []
       = .ok [("type", Value.str "Relationship"),
              ("object", Value.str "urn:ngsi-ld:Foo:001")]) ∧
    (∀ t : RelTarget,
       NgsiDict._build_relationship (RelValue.single t) none none []
         = .ok [("type", Value.str "Relationship"), ("object", Value.str t.resolve)]) ∧
    (∀ ts : List RelTarget,
       NgsiDict._build_relationship (RelValue.list ts) none none []
         = .ok [("type", Value.str "Relationship"),
                ("object", Value.arr (ts.map (fun t => Value.str t.resolve)))]) ∧
    (∀ s : String, Urn.prefixId (Urn.prefixId s) = Urn.prefixId s) ∧
    (∀ s : String, Urn.isPrefixed s = true → Urn.prefixId s = s) := by
  refine ⟨rfl, rfl, fun t => rfl, fun ts => rfl, ?_, ?_⟩
  · intro s
    unfold Urn.prefixId
    by_cases h : Urn.isPrefixed s
    · simp [h]
    · simp [h, Urn.isPrefixed_append]
  · intro s h
    simp [Urn.prefixId, h]

/-- Witness for C3: prefixing leaves the already-prefixed identifier alone,
and a singleton target list gets its element prefixed. -/
theorem C3_witness :
    Urn.prefixId "urn:ngsi-ld:Foo:001" = "urn:ngsi-ld:Foo:001" ∧
    NgsiDict._build_relationship (RelValue.list [RelTarget.str "Foo:001"]) none none []
      = .ok [("type", Value.str "Relationship"),
             ("object", Value.arr [Value.str "urn:ngsi-ld:Foo:001"])] :=
  ⟨C3_relationship_prefixing_idempotent.2.2.2.2.2 "urn:ngsi-ld:Foo:001" rfl,
   C3_relationship_prefixing_idempotent.2.2.2.1 [RelTarget.str "Foo:001"]⟩

theorem NgsiDict.process_observedat_not_datetime (od : DateInput)
    (hod : od.isDatetime = false) :
    NgsiDict._process_observedat od = .error .NgsiDateFormatError := by
  cases od with
  | datetime s => simp [DateInput.isDatetime] at hod
  | date s => rfl
  | time s => rfl
  | duration s => rfl

theorem obsEntry_not_datetime (od : DateInput) (hod : od.isDatetime = false) :
    obsEntry (some od) = .error .NgsiDateFormatError := by
  simp [obsEntry, NgsiDict.process_observedat_not_datetime od hod, Except.map]

/-- C4: an `observedAt` that does not parse as a full date-time (a bare date,
a bare time, or a duration such as "P1D") makes `_process_observedat` raise
`NgsiDateFormatError`, and every attribute builder given such an `observedAt`
(and an otherwise valid value) raises the same error, producing no
sub-document. -/
theorem C4_observedat_rejects_non_datetime (od : DateInput) (hod : od.isDatetime = false) :
    (NgsiDict._process_observedat od = .error .NgsiDateFormatError) ∧
    (∀ s, NgsiDict._process_observedat (.datetime s) = .ok s) ∧
    (∀ attrV escape v, attrV.observedat = some od →
       NgsiDict.map_raw_value attrV.value escape = .ok v →
       NgsiDict._build_property attrV escape = .error .NgsiDateFormatError) ∧
    (∀ value g did, NgsiDict.geo_resolve value = .ok g →
       NgsiDict._build_geoproperty value (some od) did = .error .NgsiDateFormatError) ∧
    (∀ rv did ud,
       NgsiDict._build_relationship rv (some od) did ud = .error .NgsiDateFormatError) ∧
    (∀ v attrtype vv, v.observedat = some od →
       NgsiDict.m_resolve_target attrtype v.value = .ok vv →
       NgsiDict._m__build_one v attrtype = .error .NgsiDateFormatError) := by
  refine ⟨NgsiDict.process_observedat_not_datetime od hod, fun s => rfl, ?_, ?_, ?_, ?_⟩
  · intro attrV escape v hoa hmv
    unfold NgsiDict._build_property
    rw [hmv, hoa, obsEntry_not_datetime od hod]
  · intro value g did hg
    unfold NgsiDict._build_geoproperty
    rw [hg, obsEntry_not_datetime od hod]
  · intro rv did ud
    unfold NgsiDict._build_relationship
    rw [obsEntry_not_datetime od hod]
  · intro v attrtype vv hoa hmv
    unfold NgsiDict._m__build_one
    rw [hmv, hoa, obsEntry_not_datetime od hod]

/-- Witness for C4: the duration "P1D" is rejected both by the validator and
by the property builder. -/
theorem C4_witness :
    NgsiDict._process_observedat (DateInput.duration "P1D")
      = .error .NgsiDateFormatError ∧
    NgsiDict._build_property
        ⟨Value.int 21, none, some (DateInput.duration "P1D"), none, []⟩ false
      = .error .NgsiDateFormatError :=
  ⟨(C4_observedat_rejects_non_datetime (DateInput.duration "P1D") rfl).1,
   (C4_observedat_rejects_non_datetime (DateInput.duration "P1D") rfl).2.2.1
     ⟨Value.int 21, none, some (DateInput.duration "P1D"), none, []⟩ false
     (Value.int 21) rfl rfl⟩

/-- Whether a call returned normally (no exception). -/
def exceptOk {α : Type} : Except NgsiErr α → Bool
  | .ok _ => true
  | .error _ => false

/-- C5: `SubscriptionBuilder.build` raises exactly when no entity selector has
been added and no watched-attribute list has been set; `watch([])` and
`notif([])` raise `ValueError` immediately — the raise happens before any
assignment, so nothing is stored — and a successful `watch` stores exactly the
non-empty list it was given. -/
theorem C5_subscription_build_guard (b : Subscription) :
    (exceptOk (SubscriptionBuilder.build b) = false ↔
       (b.entities = [] ∧ b.watched_attrs = none)) ∧
    SubscriptionBuilder.watch b [] = .error .ValueError ∧
    SubscriptionBuilder.notif b [] = .error .ValueError ∧
    (∀ v : List String, v ≠ [] →
       SubscriptionBuilder.watch b v = .ok { b with watched_attrs := some v }) := by
  refine ⟨?_, rfl, rfl, ?_⟩
  · unfold SubscriptionBuilder.build
    by_cases h : b.entities = [] ∧ b.watched_attrs = none <;> simp [h, exceptOk]
  · intro v hv
    simp [SubscriptionBuilder.watch, hv]

/-- Witness for C5: the freshly initialized builder fails to build, and
watching a non-empty list stores it. -/
theorem C5_witness :
    exceptOk (SubscriptionBuilder.build (SubscriptionBuilder.init "http://myserver" none))
      = false ∧
    SubscriptionBuilder.watch (SubscriptionBuilder.init "http://myserver" none)
        ["temperature"]
      = .ok { SubscriptionBuilder.init "http://myserver" none with
              watched_attrs := some ["temperature"] } :=
  ⟨(C5_subscription_build_guard _).1.mpr ⟨rfl, rfl⟩,
   (C5_subscription_build_guard _).2.2.2 ["temperature"] (by simp)⟩

/-- C6: `build()` on a registration whose endpoint is unset (empty) raises
`ValueError`; with an endpoint and one `RegistrationInfo`, `build()` returns
the registration and its serialized mapping contains `endpoint`, an
`information` array of exactly one element, and `type` equal to
"ContextSourceRegistration". -/
theorem C6_registration_build_validation (ep : String) (ri : RegistrationInfo)
    (ctx : Value) (hep : ep ≠ "") :
    (∀ info r, CSourceRegistrationBuilder.init "" info ctx = .ok r →
       CSourceRegistrationBuilder.build r = .error .ValueError) ∧
    (CSourceRegistrationBuilder.init ep (.single ri) ctx
       = .ok (CSourceRegistrationBuilder.mk_state ep [ri] ctx)) ∧
    (CSourceRegistrationBuilder.build (CSourceRegistrationBuilder.mk_state ep [ri] ctx)
       = .ok (CSourceRegistrationBuilder.mk_state ep [ri] ctx)) ∧
    (CSourceRegistration.to_dict (CSourceRegistrationBuilder.mk_state ep [ri] ctx)
       = .ok [("type", Value.str "ContextSourceRegistration"),
              ("information", Value.arr [Value.dict ri.to_dict]),
              ("endpoint", Value.str ep),
              ("@context", ctx)]) ∧
    Dict.get? [(("type" : String), Value.str "ContextSourceRegistration"),
        ("information", Value.arr [Value.dict ri.to_dict]),
        ("endpoint", Value.str ep), ("@context", ctx)] "endpoint"
      = some (Value.str ep) ∧
    Dict.get? [(("type" : String), Value.str "ContextSourceRegistration"),
        ("information", Value.arr [Value.dict ri.to_dict]),
        ("endpoint", Value.str ep), ("@context", ctx)] "information"
      = some (Value.arr [Value.dict ri.to_dict]) ∧
    Dict.get? [(("type" : String), Value.str "ContextSourceRegistration"),
        ("information", Value.arr [Value.dict ri.to_dict]),
        ("endpoint", Value.str ep), ("@context", ctx)] "type"
      = some (Value.str "ContextSourceRegistration") := by
  have he : ep.isEmpty = false := by
    cases hE : ep.isEmpty
    · rfl
    · exact absurd ((String.isEmpty_iff ep).mp hE) hep
  refine ⟨?_, rfl, ?_, ?_, ?_, ?_, ?_⟩
  · intro info r h
    cases info with
    | single ri0 =>
      simp only [CSourceRegistrationBuilder.init] at h
      injection h with h
      subst h
      rfl
    | list l =>
      simp only [CSourceRegistrationBuilder.init] at h
      injection h with h
      subst h
      rfl
    | other => exact Except.noConfusion h
  · simp [CSourceRegistrationBuilder.build, CSourceRegistrationBuilder.mk_state, he]
  · simp [CSourceRegistration.to_dict, CSourceRegistrationBuilder.mk_state, entryIf,
      truthyOptStr, truthyOptList, Value.truthy, Dict.update, Dict.hasKey, strlistVal,
      optStrVal]
  · simp [Dict.get?]
  · simp [Dict.get?]
  · simp [Dict.get?]

/-- Witness for C6: a concrete registration with endpoint and one information
entry builds, while the empty-endpoint variant of the same state fails. -/
theorem C6_witness :
    CSourceRegistrationBuilder.build (CSourceRegistrationBuilder.mk_state "http://broker"
        [⟨none, some ["temperature"], none⟩] (Value.str CORE_CONTEXT))
      = .ok (CSourceRegistrationBuilder.mk_state "http://broker"
        [⟨none, some ["temperature"], none⟩] (Value.str CORE_CONTEXT)) ∧
    CSourceRegistrationBuilder.build (CSourceRegistrationBuilder.mk_state ""
        [⟨none, some ["temperature"], none⟩] (Value.str CORE_CONTEXT))
      = .error .ValueError :=
  ⟨(C6_registration_build_validation "http://broker" ⟨none, some ["temperature"], none⟩
      (Value.str CORE_CONTEXT) (by decide)).2.2.1,
   (C6_registration_build_validation "http://broker" ⟨none, some ["temperature"], none⟩
      (Value.str CORE_CONTEXT) (by decide)).1
     (.single ⟨none, some ["temperature"], none⟩) _ rfl⟩

/-- C8: because the guard of the `mode` setter combines its two tests with
`and` instead of `or`, a string argument is never rejected: `mode("bogus")`
returns normally and stores "bogus" even though it is not one of the four
enumeration members, while non-string arguments do raise `ValueError`. -/
theorem C8_mode_guard_never_rejects_strings (r : CSourceRegistration) :
    CSourceRegistrationBuilder.mode r (Value.str "bogus")
      = .ok { r with mode := some "bogus" } ∧
    (∀ s, CSourceRegistrationBuilder.mode r (Value.str s)
      = .ok { r with mode := some s }) ∧
    CSourceRegistrationBuilder.mode r Value.obj = .error .ValueError ∧
    CSourceRegistrationBuilder.mode r (Value.int 5) = .error .ValueError :=
  ⟨rfl, fun _s => rfl, rfl, rfl⟩

theorem C9_counterexample_cooldown_does_serialize :
    RegistrationManagementInfo.init none none none (some 5)
      = .ok ⟨none, none, none, some 5⟩ ∧
    RegistrationManagementInfo.to_dict ⟨none, none, none, some 5⟩
      = .ok [("cooldown", Value.int 5)] ∧
    Dict.hasKey [(("cooldown" : String), Value.int 5)] "cooldown" = true :=
  ⟨rfl, rfl, rfl⟩

/-- C9 (amended): the `cooldonw` typo is consistent between `__init__` and
`to_dict`, so `to_dict` is never a silent no-op for `cooldown`: when no (or a
falsy) cooldown was supplied, `to_dict` raises `AttributeError` because the
`cooldonw` attribute was never assigned; when a positive cooldown was
supplied, `to_dict` returns normally and its result does contain the
`cooldown` key. -/
theorem C9_cooldonw_typo_behavior (lo : Option Bool) (cd : Option String)
    (tm : Option Int) (c : Int) :
    (∀ m, RegistrationManagementInfo.init lo cd tm none = .ok m →
       RegistrationManagementInfo.to_dict m = .error .AttributeError) ∧
    (∀ m, RegistrationManagementInfo.init lo cd tm (some 0) = .ok m →
       RegistrationManagementInfo.to_dict m = .error .AttributeError) ∧
    (c > 0 → ∀ m, RegistrationManagementInfo.init lo cd tm (some c) = .ok m →
       exceptOk (RegistrationManagementInfo.to_dict m) = true ∧
       (∀ d, RegistrationManagementInfo.to_dict m = .ok d →
          Dict.hasKey d "cooldown" = true)) := by
  refine ⟨?_, ?_, ?_⟩
  · intro m h
    unfold RegistrationManagementInfo.init at h
    cases htm : RegistrationManagementInfo.check_positive tm with
    | error e => rw [htm] at h; exact Except.noConfusion h
    | ok tmo =>
      rw [htm] at h
      injection h with h
      subst h
      rfl
  · intro m h
    unfold RegistrationManagementInfo.init at h
    cases htm : RegistrationManagementInfo.check_positive tm with
    | error e => rw [htm] at h; exact Except.noConfusion h
    | ok tmo =>
      rw [htm] at h
      injection h with h
      subst h
      rfl
  · intro hc m h
    have hne : c ≠ 0 := by omega
    have hnlt : ¬ c < 0 := by omega
    have hcp : RegistrationManagementInfo.check_positive (some c) = .ok (some c) := by
      simp [RegistrationManagementInfo.check_positive, hne, hnlt]
    unfold RegistrationManagementInfo.init at h
    cases htm : RegistrationManagementInfo.check_positive tm with
    | error e => rw [htm] at h; exact Except.noConfusion h
    | ok tmo =>
      rw [htm, hcp] at h
      injection h with h
      subst h
      refine ⟨rfl, ?_⟩
      intro d hd
      unfold RegistrationManagementInfo.to_dict at hd
      injection hd with hd
      subst hd
      simp [Dict.hasKey_append, Dict.hasKey_entryIf, bne_iff_ne, hne]

/-- Witness for C9: with no cooldown argument `to_dict` raises
`AttributeError`; with cooldown 7 it returns normally. -/
theorem C9_witness :
    RegistrationManagementInfo.to_dict ⟨none, none, none, none⟩
      = .error .AttributeError ∧
    exceptOk (RegistrationManagementInfo.to_dict ⟨none, none, none, some 7⟩) = true :=
  ⟨(C9_cooldonw_typo_behavior none none none 7).1 ⟨none, none, none, none⟩ rfl,
   ((C9_cooldonw_typo_behavior none none none 7).2.2 (by norm_num)
     ⟨none, none, none, some 7⟩ rfl).1⟩

/-- C10: whenever `SubscriptionBuilder.build` succeeds, the built mapping's
"notification" entry maps "endpoint" to `None` — `Endpoint.to_dict` assembles
a dict but returns nothing — so the endpoint URI and accept header never
appear in the serialized subscription. -/
theorem C10_notification_endpoint_is_none (b : Subscription) (d : Dict)
    (hok : SubscriptionBuilder.build b = .ok d) :
    Dict.get? d "notification"
      = some (Value.dict (NotificationParams.to_dict b.notification)) ∧
    Dict.get? (NotificationParams.to_dict b.notification) "endpoint"
      = some Value.null ∧
    Dict.hasKey (NotificationParams.to_dict b.notification) "uri" = false ∧
    Dict.hasKey (NotificationParams.to_dict b.notification) "accept" = false := by
  have hd : d = Subscription.to_dict b := by
    unfold SubscriptionBuilder.build at hok
    split at hok
    · exact Except.noConfusion hok
    · injection hok with hok
      exact hok.symm
  subst hd
  refine ⟨?_, ?_, ?_, ?_⟩
  · simp only [Subscription.to_dict, Dict.get?_append, Dict.get?_entryIf, Dict.get?_cons,
      Dict.get?_nil, String.reduceEq, if_false, and_false, if_true, Option.or_none,
      Option.none_or]
  · simp [NotificationParams.to_dict, Endpoint.to_dict, Dict.get?_append,
      Dict.get?_entryIf, Dict.get?_cons, Dict.get?_nil]
  · simp [NotificationParams.to_dict, Dict.hasKey_append, Dict.hasKey_entryIf,
      Dict.hasKey_cons, Dict.hasKey_nil]
  · simp [NotificationParams.to_dict, Dict.hasKey_append, Dict.hasKey_entryIf,
      Dict.hasKey_cons, Dict.hasKey_nil]

/-- Witness for C10: a builder with one entity selector builds successfully,
and its notification dict stores `None` under "endpoint". -/
theorem C10_witness :
    Dict.get? (NotificationParams.to_dict (SubscriptionBuilder.select_entities
        (SubscriptionBuilder.init "http://myserver" none) "Room" none none).notification)
      "endpoint" = some Value.null :=
  (C10_notification_endpoint_is_none
    (SubscriptionBuilder.select_entities
      (SubscriptionBuilder.init "http://myserver" none) "Room" none none)
    (Subscription.to_dict (SubscriptionBuilder.select_entities
      (SubscriptionBuilder.init "http://myserver" none) "Room" none none))
    (by rfl)).2.1
